import Mathlib

/-!
Shallow embedding of the `lager` logging library (Python) in Lean 4,
with theorems checking the natural-language specification against the code.

The embedding follows the source files:
  - `lager/enums.py`      : the five-member `Verbosity` enumeration
  - `lager/verbosity.py`  : the four-member `Verbosity` `IntEnum`
  - `lager/handlers.py`   : stream, file, socket and syslog handlers
  - `lager/loggers.py`    : the `Logger` and its `_log` pipeline

Machine-level conventions: Python byte strings are `List Nat` with entries
below 256; the `utf8` codec (the default `encoding` everywhere in the code)
is embedded explicitly and proved lossless; Python truthiness of the two
`Verbosity` types is modelled exactly (a plain `Enum` member is always
truthy, an `IntEnum` member is truthy iff its integer value is nonzero).
-/

/-! ### `lager/enums.py`: the five-member `Verbosity` enumeration -/

/-- `lager.enums.Verbosity`, a plain `Enum` with members
`debug = 0, info = 1, warning = 2, error = 3, exception = 4`. -/
inductive Verbosity where
  | debug
  | info
  | warning
  | error
  | exception
deriving DecidableEq, Repr

/-- The `.value` attribute of an `enums.Verbosity` member. -/
def Verbosity.value : Verbosity → Nat
  | .debug => 0
  | .info => 1
  | .warning => 2
  | .error => 3
  | .exception => 4

/-- `Verbosity.__str__`: the upper-cased member name. -/
def Verbosity.display : Verbosity → String
  | .debug => "DEBUG"
  | .info => "INFO"
  | .warning => "WARNING"
  | .error => "ERROR"
  | .exception => "EXCEPTION"

/-- POSIX `syslog.LOG_DEBUG`. -/
def LOG_DEBUG : Nat := 7

/-- POSIX `syslog.LOG_INFO`. -/
def LOG_INFO : Nat := 6

/-- POSIX `syslog.LOG_WARNING`. -/
def LOG_WARNING : Nat := 4

/-- POSIX `syslog.LOG_ERR`. -/
def LOG_ERR : Nat := 3

/-- POSIX `syslog.LOG_USER` facility code. -/
def LOG_USER : Nat := 8

/-- `enums.Verbosity.as_syslog`: the `syslog` priority equivalent of the
verbosity.  The source compares with `==`, which the class overloads to
compare `.value` fields. -/
def Verbosity.as_syslog (v : Verbosity) : Nat :=
  if v.value = Verbosity.debug.value then LOG_DEBUG
  else if v.value = Verbosity.info.value then LOG_INFO
  else if v.value = Verbosity.warning.value then LOG_WARNING
  else LOG_ERR

/-! ### `lager/verbosity.py`: the four-member `Verbosity` `IntEnum`

The package ships a second `Verbosity` type (exported from
`lager/verbosity.py`, re-exported by `lager/__init__.py` together with its
`DEBUG` alias).  It is an `IntEnum`, so its members inherit integer
truthiness: the `debug` member has value `0` and is falsy. -/

/-- `lager.verbosity.Verbosity`, an `IntEnum` with members
`debug = 0, info = 1, warning = 2, error = 3`. -/
inductive IntVerbosity where
  | debug
  | info
  | warning
  | error
deriving DecidableEq, Repr

/-- The integer value of a `verbosity.Verbosity` (`IntEnum`) member. -/
def IntVerbosity.value : IntVerbosity → Nat
  | .debug => 0
  | .info => 1
  | .warning => 2
  | .error => 3

/-! ### The UTF-8 codec

`handlers.py` converts entries to bytes with `bytes(entry, self.encoding)`
where `encoding` defaults to `'utf8'` throughout.  We embed the UTF-8
codec over unicode scalar values and prove the encode/decode round trip,
which is the losslessness the spec demands. -/

/-- UTF-8 encoding of one unicode scalar value (given as a `Nat`). -/
def utf8EncodeChar (n : Nat) : List Nat :=
  if n < 0x80 then [n]
  else if n < 0x800 then
    [0xC0 + n / 64, 0x80 + n % 64]
  else if n < 0x10000 then
    [0xE0 + n / 4096, 0x80 + n / 64 % 64, 0x80 + n % 64]
  else
    [0xF0 + n / 262144, 0x80 + n / 4096 % 64, 0x80 + n / 64 % 64, 0x80 + n % 64]

/-- UTF-8 encoding of a list of characters. -/
def utf8EncodeList : List Char → List Nat
  | [] => []
  | c :: cs => utf8EncodeChar c.toNat ++ utf8EncodeList cs

/-- `bytes(s, 'utf8')`: the UTF-8 encoding of a string, as a byte list. -/
def utf8Encode (s : String) : List Nat :=
  utf8EncodeList s.data

/-- Continuation of a 2-byte UTF-8 sequence headed by `b`. -/
def utf8Cont1 (b : Nat) : List Nat → Option (Nat × List Nat)
  | b1 :: bs1 =>
    if 0x80 ≤ b1 ∧ b1 < 0xC0 then
      some ((b - 0xC0) * 64 + (b1 - 0x80), bs1)
    else none
  | [] => none

/-- Continuation of a 3-byte UTF-8 sequence headed by `b`. -/
def utf8Cont2 (b : Nat) : List Nat → Option (Nat × List Nat)
  | b1 :: b2 :: bs2 =>
    if (0x80 ≤ b1 ∧ b1 < 0xC0) ∧ (0x80 ≤ b2 ∧ b2 < 0xC0) then
      some ((b - 0xE0) * 4096 + (b1 - 0x80) * 64 + (b2 - 0x80), bs2)
    else none
  | _ => none

/-- Continuation of a 4-byte UTF-8 sequence headed by `b`. -/
def utf8Cont3 (b : Nat) : List Nat → Option (Nat × List Nat)
  | b1 :: b2 :: b3 :: bs3 =>
    if (0x80 ≤ b1 ∧ b1 < 0xC0) ∧ (0x80 ≤ b2 ∧ b2 < 0xC0) ∧ (0x80 ≤ b3 ∧ b3 < 0xC0) then
      some ((b - 0xF0) * 262144 + (b1 - 0x80) * 4096 + (b2 - 0x80) * 64 + (b3 - 0x80), bs3)
    else none
  | _ => none

/-- Decode one UTF-8 sequence from the front of a byte list, returning the
scalar value and the remaining bytes; `none` on malformed input. -/
def utf8DecodeOne : List Nat → Option (Nat × List Nat)
  | [] => none
  | b :: bs =>
    if b < 0x80 then some (b, bs)
    else if b < 0xC2 then none
    else if b < 0xE0 then utf8Cont1 b bs
    else if b < 0xF0 then utf8Cont2 b bs
    else if b < 0xF5 then utf8Cont3 b bs
    else none

theorem utf8Cont1_length (b : Nat) (l : List Nat) (n : Nat) (rest : List Nat)
    (h : utf8Cont1 b l = some (n, rest)) : rest.length < l.length := by
  cases l with
  | nil => simp [utf8Cont1] at h
  | cons b1 bs1 =>
    rw [utf8Cont1] at h
    split at h
    · rw [Option.some.injEq, Prod.mk.injEq] at h
      obtain ⟨h1, h2⟩ := h
      subst h2
      simp
    · cases h

theorem utf8Cont2_length (b : Nat) (l : List Nat) (n : Nat) (rest : List Nat)
    (h : utf8Cont2 b l = some (n, rest)) : rest.length < l.length := by
  cases l with
  | nil => simp [utf8Cont2] at h
  | cons b1 tl =>
    cases tl with
    | nil => simp [utf8Cont2] at h
    | cons b2 bs2 =>
      rw [utf8Cont2] at h
      split at h
      · rw [Option.some.injEq, Prod.mk.injEq] at h
        obtain ⟨h1, h2⟩ := h
        subst h2
        simp
        omega
      · cases h

theorem utf8Cont3_length (b : Nat) (l : List Nat) (n : Nat) (rest : List Nat)
    (h : utf8Cont3 b l = some (n, rest)) : rest.length < l.length := by
  cases l with
  | nil => simp [utf8Cont3] at h
  | cons b1 tl =>
    cases tl with
    | nil => simp [utf8Cont3] at h
    | cons b2 tl2 =>
      cases tl2 with
      | nil => simp [utf8Cont3] at h
      | cons b3 bs3 =>
        rw [utf8Cont3] at h
        split at h
        · rw [Option.some.injEq, Prod.mk.injEq] at h
          obtain ⟨h1, h2⟩ := h
          subst h2
          simp
          omega
        · cases h

theorem utf8DecodeOne_length (l : List Nat) (n : Nat) (rest : List Nat)
    (h : utf8DecodeOne l = some (n, rest)) : rest.length < l.length := by
  cases l with
  | nil => simp [utf8DecodeOne] at h
  | cons b bs =>
    rw [utf8DecodeOne] at h
    split at h
    · rw [Option.some.injEq, Prod.mk.injEq] at h
      obtain ⟨h1, h2⟩ := h
      subst h2
      simp
    · split at h
      · cases h
      · split at h
        · exact Nat.lt_trans (utf8Cont1_length b bs n rest h) (by simp)
        · split at h
          · exact Nat.lt_trans (utf8Cont2_length b bs n rest h) (by simp)
          · split at h
            · exact Nat.lt_trans (utf8Cont3_length b bs n rest h) (by simp)
            · cases h

/-- UTF-8 decoding of a byte list into unicode scalar values; `none` on
malformed input (Python's strict-mode `bytes.decode('utf8')` raises). -/
def utf8DecodeList (l : List Nat) : Option (List Nat) :=
  if l = [] then some []
  else
    match h : utf8DecodeOne l with
    | some (n, rest) =>
      have : rest.length < l.length := utf8DecodeOne_length l n rest h
      (utf8DecodeList rest).map (fun ns => n :: ns)
    | none => none
termination_by l.length

/-- `bs.decode('utf8')`: UTF-8 decoding of a byte list into a string. -/
def utf8Decode (bs : List Nat) : Option String :=
  (utf8DecodeList bs).map (fun ns => String.mk (ns.map Char.ofNat))

/-! ### Python truthiness of verbosity arguments

Every handler constructor stores `verbosity or Verbosity.info`.  The value a
caller passes can be a member of either of the package's two `Verbosity`
types (or be absent).  A plain `Enum` member is always truthy; an `IntEnum`
member is truthy iff its integer value is nonzero. -/

/-- A verbosity value as a handler constructor receives it: a member of
`lager.enums.Verbosity` or of the `IntEnum` `lager.verbosity.Verbosity`. -/
inductive VerbosityArg where
  | enumV (v : Verbosity)
  | intEnumV (v : IntVerbosity)
deriving DecidableEq, Repr

/-- Python truthiness of a verbosity argument. -/
def VerbosityArg.truthy : VerbosityArg → Bool
  | .enumV _ => true
  | .intEnumV v => decide (v.value ≠ 0)

/-- The integer `.value` that the overloaded comparison operators of both
`Verbosity` classes compare. -/
def VerbosityArg.value : VerbosityArg → Nat
  | .enumV v => v.value
  | .intEnumV v => v.value

/-- The expression `verbosity or Verbosity.info` shared by every handler
constructor (`handlers.py` lines 34, 94, 126): the argument when it is
truthy, `enums.Verbosity.info` otherwise (absent or falsy). -/
def resolveVerbosity : Option VerbosityArg → VerbosityArg
  | none => .enumV .info
  | some a => if a.truthy then a else .enumV .info

/-! ### `lager/handlers.py`: stream handlers -/

/-- The identity of a pre-opened text stream. -/
inductive StreamId where
  | stdout
  | stderr
  | other (id : Nat)
deriving DecidableEq, Repr

/-- An observable operation on a text stream. -/
inductive StreamAction where
  | write (s : String)
  | flush
deriving DecidableEq, Repr

/-- `StreamHandler`: a stream object plus a minimum verbosity. -/
structure StreamHandler where
  stream : StreamId
  verbosity : VerbosityArg
deriving DecidableEq, Repr

/-- `StreamHandler.__init__`. -/
def StreamHandler.init (stream : StreamId) (verbosity : Option VerbosityArg) :
    StreamHandler :=
  { stream := stream, verbosity := resolveVerbosity verbosity }

/-- `StreamHandler.write_entry`: `if self.verbosity <= verbosity:
self.stream.write(entry)` — the sequence of stream operations the call
performs. -/
def StreamHandler.write_entry (h : StreamHandler) (entry : String)
    (verbosity : Verbosity) : List StreamAction :=
  if h.verbosity.value ≤ verbosity.value then [.write entry] else []

/-- `StdErrHandler.__init__`: `super().__init__(stream=stderr, verbosity=verbosity)`. -/
def StdErrHandler.init (verbosity : Option VerbosityArg) : StreamHandler :=
  StreamHandler.init .stderr verbosity

/-- `StdOutHandler.__init__`: `super().__init__(stream=stdout, verbosity=verbosity)`. -/
def StdOutHandler.init (verbosity : Option VerbosityArg) : StreamHandler :=
  StreamHandler.init .stdout verbosity

/-! ### `lager/handlers.py`: file handler

The destination is modelled by its on-disk byte content.  `write_entry`
performs `self.fh.write(bytes(entry, self.encoding).decode(self.encoding))`
followed by `self.fh.flush()`; the `codecs` file handle encodes the written
text with the configured encoding (default `utf8`, the one the repository
uses and the one embedded here).  A decode failure raises in Python, hence
the `Option`. -/

/-- `FileHandler`: the threshold (the open file is the `List Nat` state
passed to `write_entry`). -/
structure FileHandler where
  verbosity : VerbosityArg
deriving DecidableEq, Repr

/-- `FileHandler.__init__` (threshold part): `verbosity or Verbosity.info`. -/
def FileHandler.init (verbosity : Option VerbosityArg) : FileHandler :=
  { verbosity := resolveVerbosity verbosity }

/-- `FileHandler.write_entry` acting on the file's byte content. -/
def FileHandler.write_entry (h : FileHandler) (entry : String)
    (verbosity : Verbosity) (disk : List Nat) : Option (List Nat) :=
  if h.verbosity.value ≤ verbosity.value then
    (utf8Decode (utf8Encode entry)).map (fun t => disk ++ utf8Encode t)
  else some disk

/-! ### `lager/handlers.py`: socket handlers -/

/-- Linux `socket.AF_UNIX`. -/
def AF_UNIX : Nat := 1

/-- Linux `socket.AF_INET`. -/
def AF_INET : Nat := 2

/-- Linux `socket.AF_INET6`. -/
def AF_INET6 : Nat := 10

/-- Linux `socket.SOCK_STREAM`. -/
def SOCK_STREAM : Nat := 1

/-- Linux `socket.SOCK_DGRAM`. -/
def SOCK_DGRAM : Nat := 2

/-- The address a socket is connected to: `(self.host, self.port)` or the
bare `self.host`. -/
inductive SockAddr where
  | hostPort (host : String) (port : Nat)
  | hostOnly (host : String)
deriving DecidableEq, Repr

/-- The connection request `SocketHandler.__init__` issues: either
`socket.create_connection((host, port))`, or a raw
`socket.socket(family, type)` followed by `sock.connect(address)`. -/
inductive SockConn where
  | createConnection (host : String) (port : Nat)
  | rawConnect (family : Nat) (type : Nat) (addr : SockAddr)
deriving DecidableEq, Repr

/-- Python truthiness of an optional integer (absent or zero is falsy). -/
def optTruthy : Option Nat → Bool
  | some n => decide (n ≠ 0)
  | none => false

/-- The connection-selection logic of `SocketHandler.__init__`
(`handlers.py` lines 133-151), translated clause by clause:
`if self.port is not None and self.type != socket.SOCK_DGRAM`, then inside
the else branch `if self.port:` (truthiness!), `if self.family and
self.type:` (truthiness), `elif self.type:`, final `else`. -/
def SocketHandler.initConn (host : String) (port : Option Nat)
    (family : Option Nat) (type : Option Nat) : SockConn :=
  if port.isSome ∧ type ≠ some SOCK_DGRAM then
    .createConnection host (port.getD 0)
  else
    let address : SockAddr :=
      if optTruthy port then .hostPort host (port.getD 0) else .hostOnly host
    if optTruthy family && optTruthy type then
      .rawConnect (family.getD 0) (type.getD 0) address
    else if optTruthy type then
      .rawConnect AF_UNIX (type.getD 0) address
    else
      .rawConnect AF_UNIX SOCK_DGRAM address

/-- `SocketHandler`: the threshold (the connected socket is the
`List (List Nat)` trace of `sendall` payloads passed to `write_entry`). -/
structure SocketHandler where
  verbosity : VerbosityArg
deriving DecidableEq, Repr

/-- `SocketHandler.write_entry`: `if self.verbosity <= verbosity:
self.socket.sendall(bytes(entry, self.encoding))`, with the default
`utf8` encoding. -/
def SocketHandler.write_entry (h : SocketHandler) (entry : String)
    (verbosity : Verbosity) (sent : List (List Nat)) : List (List Nat) :=
  if h.verbosity.value ≤ verbosity.value then sent ++ [utf8Encode entry] else sent

/-! ### `lager/handlers.py`: syslog handler -/

/-- `SyslogHandler`: facility plus threshold. -/
structure SyslogHandler where
  facility : Nat
  verbosity : VerbosityArg
deriving DecidableEq, Repr

/-- `SyslogHandler.__init__`: `facility` defaults to `syslog.LOG_USER`;
the threshold is `verbosity or Verbosity.info` from the `SocketHandler`
constructor it delegates to. -/
def SyslogHandler.init (facility : Option Nat) (verbosity : Option VerbosityArg) :
    SyslogHandler :=
  { facility := facility.getD LOG_USER, verbosity := resolveVerbosity verbosity }

/-- `SyslogHandler._get_priority`: `(self.facility * 8) + verbosity.as_syslog`. -/
def SyslogHandler._get_priority (h : SyslogHandler) (verbosity : Verbosity) : Nat :=
  h.facility * 8 + verbosity.as_syslog

/-- `SyslogHandler.write_entry`: threshold check, then
`entry = f'<{priority}>{entry}\x00'` and
`self.socket.sendall(bytes(entry, self.encoding))`. -/
def SyslogHandler.write_entry (h : SyslogHandler) (entry : String)
    (verbosity : Verbosity) (sent : List (List Nat)) : List (List Nat) :=
  if h.verbosity.value ≤ verbosity.value then
    sent ++ [utf8Encode
      ("<" ++ toString (h._get_priority verbosity) ++ ">" ++ entry
        ++ String.mk [Char.ofNat 0])]
  else sent

/-! ### `lager/loggers.py`: the `Logger`

The template string is embedded as its parsed form, a list of literal and
placeholder parts (`str.format` over plain `{key}` fields, the only form
the code uses).  The kwargs dictionary is an association list with Python
`dict` update semantics.  Call-site facts that `_get_kwargs` obtains from
the runtime (clock, stack frame, pid, current traceback) are an explicit
`Env` argument.  Handlers attached to a logger are modelled by stream
handlers, whose `write_entry` carries the threshold discipline shared by
every handler class. -/

/-- One piece of a format template: literal text or a `{key}` placeholder. -/
inductive TemplatePart where
  | lit (s : String)
  | field (key : String)
deriving DecidableEq, Repr

/-- `DEFAULT_TEMPLATE = '{time} {verbosity} {name}: {message}'`. -/
def DEFAULT_TEMPLATE : List TemplatePart :=
  [.field "time", .lit " ", .field "verbosity", .lit " ", .field "name",
   .lit ": ", .field "message"]

/-- `d[k] = v` on a Python dict modelled as an association list: replace
the existing binding or append a new one. -/
def dictInsert : List (String × String) → String → String → List (String × String)
  | [], k, v => [(k, v)]
  | (k', v') :: rest, k, v =>
    if k' = k then (k, v) :: rest else (k', v') :: dictInsert rest k v

/-- `d.update(upd)`: insert the bindings of `upd` left to right. -/
def dictUpdate (d : List (String × String)) (upd : List (String × String)) :
    List (String × String) :=
  upd.foldl (fun acc kv => dictInsert acc kv.1 kv.2) d

/-- `d.get(k)` lookup. -/
def dictGet : List (String × String) → String → Option String
  | [], _ => none
  | (k', v) :: rest, k => if k' = k then some v else dictGet rest k

/-- `self.template.format(**kwargs)`: interpolate each placeholder from the
kwargs dict; a placeholder absent from the dict raises `KeyError`
(modelled as `Except.error ()`). -/
def formatTemplate (kwargs : List (String × String)) :
    List TemplatePart → Except Unit String
  | [] => .ok ""
  | .lit s :: rest => (formatTemplate kwargs rest).map (fun t => s ++ t)
  | .field key :: rest =>
    match dictGet kwargs key with
    | some v => (formatTemplate kwargs rest).map (fun t => v ++ t)
    | none => .error ()

/-- A caller-supplied context value: an ordinary value, or a zero-argument
callable.  A callable is modelled by the stream of results of its
successive invocations (`f 0` is what the first call returns). -/
inductive CtxValue where
  | plain (s : String)
  | callable (f : Nat → String)

/-- The comprehension body `value() if callable(value) else value`: the
value used for interpolation, paired with the number of times the callable
was invoked to produce it. -/
def evalCtxValue : CtxValue → String × Nat
  | .plain s => (s, 0)
  | .callable f => (f 0, 1)

/-- The `run_context` dict comprehension of `Logger._log`. -/
def runContext (context : List (String × CtxValue)) : List (String × String) :=
  context.map (fun kv => (kv.1, (evalCtxValue kv.2).1))

/-- How many times `Logger._log` invoked the context value at position `i`. -/
def ctxCallCount (context : List (String × CtxValue)) (i : Fin context.length) :
    Nat :=
  (evalCtxValue (context.get i).2).2

/-- The call-site facts `Logger._get_kwargs` reads from the runtime. -/
structure Env where
  time : String
  source : String
  function : String
  line : Nat
  module : String
  pid : Nat
  traceback : String

/-- `Logger`. -/
structure Logger where
  name : String
  template : List TemplatePart
  handlers : List StreamHandler
  ensure_new_line : Bool

/-- `Logger.__init__`: `template or DEFAULT_TEMPLATE` and
`handlers or [StdOutHandler()]` (an empty handler list is falsy and also
falls back to the default). -/
def Logger.init (name : String) (template : Option (List TemplatePart))
    (handlers : Option (List StreamHandler)) (ensure_new_line : Bool) : Logger :=
  { name := name
    template := match template with
      | some t => if t.isEmpty then DEFAULT_TEMPLATE else t
      | none => DEFAULT_TEMPLATE
    handlers := match handlers with
      | some hs => if hs.isEmpty then [StdOutHandler.init none] else hs
      | none => [StdOutHandler.init none]
    ensure_new_line := ensure_new_line }

/-- `Logger._get_kwargs`: the standard interpolation values (`verbosity`
and `message` are added later in `_log`), including the
`'<module>' -> '__main__'` renaming. -/
def Logger._get_kwargs (lg : Logger) (env : Env) : List (String × String) :=
  [("name", lg.name),
   ("time", env.time),
   ("source", env.source),
   ("function", if env.function = "<module>" then "__main__" else env.function),
   ("line", toString env.line),
   ("module", env.module),
   ("pid", toString env.pid)]

/-- The kwargs dict `Logger._log` hands to `str.format`: standard kwargs,
then `verbosity`/`message`, then the evaluated caller context (later
updates override earlier bindings). -/
def Logger.mergedKwargs (lg : Logger) (env : Env) (verbosity : Verbosity)
    (message : String) (context : List (String × CtxValue)) :
    List (String × String) :=
  dictUpdate
    (dictUpdate (lg._get_kwargs env)
      [("verbosity", verbosity.display), ("message", message)])
    (runContext context)

/-- `Logger._log`: substitute the traceback when `err`, build the merged
kwargs, interpolate the template (a missing key raises), enforce the
trailing newline, then fan the entry out to every handler.  The result is
the per-handler list of stream operations, or the formatting error. -/
def Logger._log (lg : Logger) (env : Env) (verbosity : Verbosity)
    (message : String) (err : Bool) (context : List (String × CtxValue)) :
    Except Unit (List (List StreamAction)) :=
  let message := if err then env.traceback else message
  match formatTemplate (lg.mergedKwargs env verbosity message context) lg.template with
  | .error e => .error e
  | .ok entry =>
    let entry :=
      if lg.ensure_new_line && !(entry.endsWith "\n") then entry ++ "\n" else entry
    .ok (lg.handlers.map (fun h => h.write_entry entry verbosity))

/-- `Logger.debug`. -/
def Logger.debug (lg : Logger) (env : Env) (message : String)
    (context : List (String × CtxValue)) : Except Unit (List (List StreamAction)) :=
  lg._log env .debug message false context

/-- `Logger.capture_exception`: `self._log(Verbosity.exception, message='',
err=True, **context)`. -/
def Logger.capture_exception (lg : Logger) (env : Env)
    (context : List (String × CtxValue)) : Except Unit (List (List StreamAction)) :=
  lg._log env .exception "" true context

/-! ### Claim-side definitions

These follow the wording of spec claims (not the source); each theorem
comparing one with the source embedding says so in its statement. -/

/-- The spec's `toSyslogPriority`: debug to the syslog DEBUG priority,
info to INFO, warning to WARNING, everything else (error and above) to
ERR.  Written from the claim's words, to be compared with
`Verbosity.as_syslog` from the source. -/
def toSyslogPriority : Verbosity → Nat
  | .debug => LOG_DEBUG
  | .info => LOG_INFO
  | .warning => LOG_WARNING
  | _ => LOG_ERR

/-- The connection-selection algorithm exactly as claim C3 words it:
"the target address is (host, port) when a port is given and bare host
when not, and the socket is created with the explicit family and type
when both are given, with family defaulted to Unix-domain when only the
type is given, and as a Unix-domain datagram socket when neither is
given". -/
def claimedInitConn (host : String) (port : Option Nat)
    (family : Option Nat) (type : Option Nat) : SockConn :=
  if port.isSome ∧ type ≠ some SOCK_DGRAM then
    .createConnection host (port.getD 0)
  else
    let address : SockAddr := match port with
      | some p => .hostPort host p
      | none => .hostOnly host
    match family, type with
    | some f, some t => .rawConnect f t address
    | none, some t => .rawConnect AF_UNIX t address
    | _, _ => .rawConnect AF_UNIX SOCK_DGRAM address

/-- Claim C3 amended for Python truthiness: a port, family or type equal
to `0` counts as not given.  The target address is `(host, port)` when a
nonzero port is given and bare host otherwise; the socket uses the
explicit family and type when both are given and nonzero, family defaults
to Unix-domain when only a nonzero type is given, and a Unix-domain
datagram socket is used otherwise. -/
def amendedInitConn (host : String) (port : Option Nat)
    (family : Option Nat) (type : Option Nat) : SockConn :=
  if port.isSome ∧ type ≠ some SOCK_DGRAM then
    .createConnection host (port.getD 0)
  else
    let address : SockAddr := match port with
      | some p => if p = 0 then .hostOnly host else .hostPort host p
      | none => .hostOnly host
    match family, type with
    | some f, some t =>
      if f ≠ 0 ∧ t ≠ 0 then .rawConnect f t address
      else if t ≠ 0 then .rawConnect AF_UNIX t address
      else .rawConnect AF_UNIX SOCK_DGRAM address
    | none, some t =>
      if t ≠ 0 then .rawConnect AF_UNIX t address
      else .rawConnect AF_UNIX SOCK_DGRAM address
    | _, _ => .rawConnect AF_UNIX SOCK_DGRAM address


/-- A concrete call-site environment used by witness instantiations. -/
def sampleEnv : Env :=
  { time := "2017-09-02T00:54:35+00:00"
    source := "/app/app.py"
    function := "main"
    line := 10
    module := "app"
    pid := 4242
    traceback := "Traceback (most recent call last):" }

/-! ### Helper lemmas -/

theorem char_toNat_lt (c : Char) : c.toNat < 0x110000 := by
  have h := c.valid
  rcases h with h | h <;> simp [Char.toNat] at * <;> omega

theorem utf8DecodeOne_encodeChar (n : Nat) (h : n < 0x110000) (bs : List Nat) :
    utf8DecodeOne (utf8EncodeChar n ++ bs) = some (n, bs) := by
  by_cases h1 : n < 0x80
  · simp only [utf8EncodeChar, if_pos h1, List.cons_append, List.nil_append]
    rw [utf8DecodeOne, if_pos h1]
  · by_cases h2 : n < 0x800
    · simp only [utf8EncodeChar, if_neg h1, if_pos h2, List.cons_append, List.nil_append]
      rw [utf8DecodeOne]
      rw [if_neg (by omega), if_neg (by omega), if_pos (by omega), utf8Cont1,
        if_pos (by constructor <;> omega)]
      have hv : (0xC0 + n / 64 - 0xC0) * 64 + (0x80 + n % 64 - 0x80) = n := by omega
      rw [hv]
    · by_cases h3 : n < 0x10000
      · simp only [utf8EncodeChar, if_neg h1, if_neg h2, if_pos h3, List.cons_append,
          List.nil_append]
        rw [utf8DecodeOne]
        rw [if_neg (by omega), if_neg (by omega), if_neg (by omega), if_pos (by omega),
          utf8Cont2, if_pos (by refine ⟨⟨?_, ?_⟩, ?_, ?_⟩ <;> omega)]
        have hv : (0xE0 + n / 4096 - 0xE0) * 4096 + (0x80 + n / 64 % 64 - 0x80) * 64
            + (0x80 + n % 64 - 0x80) = n := by omega
        rw [hv]
      · simp only [utf8EncodeChar, if_neg h1, if_neg h2, if_neg h3, List.cons_append,
          List.nil_append]
        rw [utf8DecodeOne]
        rw [if_neg (by omega), if_neg (by omega), if_neg (by omega), if_neg (by omega),
          if_pos (by omega), utf8Cont3,
          if_pos (by refine ⟨⟨?_, ?_⟩, ⟨?_, ?_⟩, ?_, ?_⟩ <;> omega)]
        have hv : (0xF0 + n / 262144 - 0xF0) * 262144 + (0x80 + n / 4096 % 64 - 0x80) * 4096
            + (0x80 + n / 64 % 64 - 0x80) * 64 + (0x80 + n % 64 - 0x80) = n := by omega
        rw [hv]

theorem utf8EncodeChar_ne_nil (n : Nat) : utf8EncodeChar n ≠ [] := by
  unfold utf8EncodeChar
  split
  · simp
  · split
    · simp
    · split <;> simp

theorem utf8DecodeList_encodeChar (n : Nat) (h : n < 0x110000) (bs : List Nat) :
    utf8DecodeList (utf8EncodeChar n ++ bs)
      = (utf8DecodeList bs).map (fun ns => n :: ns) := by
  have hne : utf8EncodeChar n ++ bs ≠ [] := by
    intro hc
    exact utf8EncodeChar_ne_nil n (List.append_eq_nil.mp hc).1
  have hone := utf8DecodeOne_encodeChar n h bs
  rw [utf8DecodeList, if_neg hne]
  split
  · rename_i m rest heq
    rw [hone, Option.some.injEq, Prod.mk.injEq] at heq
    obtain ⟨h1, h2⟩ := heq
    subst h1
    subst h2
    rfl
  · rename_i heq
    rw [hone] at heq
    cases heq

theorem utf8DecodeList_nil : utf8DecodeList [] = some [] := by
  rw [utf8DecodeList, if_pos rfl]

theorem utf8DecodeList_encodeList (cs : List Char) :
    utf8DecodeList (utf8EncodeList cs) = some (cs.map Char.toNat) := by
  induction cs with
  | nil => rw [utf8EncodeList, utf8DecodeList_nil]; rfl
  | cons c cs ih =>
    rw [utf8EncodeList, utf8DecodeList_encodeChar c.toNat (char_toNat_lt c), ih]
    rfl

/-- The UTF-8 round trip is lossless on every Lean string (every sequence of
unicode scalar values). -/
theorem utf8Decode_utf8Encode (s : String) : utf8Decode (utf8Encode s) = some s := by
  rw [utf8Decode, utf8Encode, utf8DecodeList_encodeList]
  have h : (s.data.map Char.toNat).map Char.ofNat = s.data := by
    rw [List.map_map]
    induction s.data with
    | nil => rfl
    | cons c cs ih => simp only [List.map_cons, Function.comp, Char.ofNat_toNat, ih]
  show some (String.mk ((s.data.map Char.toNat).map Char.ofNat)) = some s
  rw [h]

theorem utf8EncodeList_append (a b : List Char) :
    utf8EncodeList (a ++ b) = utf8EncodeList a ++ utf8EncodeList b := by
  induction a with
  | nil => rfl
  | cons c cs ih => simp [utf8EncodeList, ih]

theorem utf8Encode_append (s t : String) :
    utf8Encode (s ++ t) = utf8Encode s ++ utf8Encode t := by
  rw [utf8Encode, utf8Encode, utf8Encode, String.data_append, utf8EncodeList_append]

theorem utf8Encode_nul : utf8Encode (String.mk [Char.ofNat 0]) = [0] := rfl

theorem dictGet_insert_self (d : List (String × String)) (k v : String) :
    dictGet (dictInsert d k v) k = some v := by
  induction d with
  | nil => simp [dictInsert, dictGet]
  | cons kv rest ih =>
    rw [dictInsert]
    split
    · rw [dictGet, if_pos rfl]
    · rw [dictGet]
      split
      · rename_i hk hk2
        exact absurd hk2 hk
      · exact ih

theorem dictGet_insert_ne (d : List (String × String)) (k' k v : String)
    (h : k' ≠ k) : dictGet (dictInsert d k' v) k = dictGet d k := by
  induction d with
  | nil => simp [dictInsert, dictGet, h]
  | cons kv rest ih =>
    rw [dictInsert]
    split
    · rename_i heq
      rw [dictGet, if_neg h, dictGet, heq, if_neg h]
    · rw [dictGet, dictGet]
      split
      · rfl
      · exact ih

theorem dictGet_update_not_mem (d : List (String × String))
    (upd : List (String × String)) (k : String)
    (h : k ∉ upd.map Prod.fst) :
    dictGet (dictUpdate d upd) k = dictGet d k := by
  induction upd generalizing d with
  | nil => rfl
  | cons kv rest ih =>
    rw [List.map_cons] at h
    rw [dictUpdate, List.foldl_cons]
    have h1 : kv.1 ≠ k := by
      intro hc
      exact h (hc ▸ List.mem_cons_self _ _)
    have h2 : k ∉ rest.map Prod.fst := fun hc => h (List.mem_cons_of_mem _ hc)
    rw [show List.foldl (fun acc kv => dictInsert acc kv.1 kv.2) (dictInsert d kv.1 kv.2) rest
        = dictUpdate (dictInsert d kv.1 kv.2) rest from rfl]
    rw [ih _ h2, dictGet_insert_ne _ _ _ _ h1]

theorem dictGet_update_mem (d : List (String × String))
    (upd : List (String × String)) (k v : String)
    (hnd : (upd.map Prod.fst).Nodup) (hmem : (k, v) ∈ upd) :
    dictGet (dictUpdate d upd) k = some v := by
  induction upd generalizing d with
  | nil => cases hmem
  | cons kv rest ih =>
    rw [List.map_cons, List.nodup_cons] at hnd
    rw [dictUpdate, List.foldl_cons]
    rw [show List.foldl (fun acc kv => dictInsert acc kv.1 kv.2) (dictInsert d kv.1 kv.2) rest
        = dictUpdate (dictInsert d kv.1 kv.2) rest from rfl]
    rcases List.mem_cons.mp hmem with heq | hmem2
    · subst heq
      have hnot : k ∉ rest.map Prod.fst := by simpa using hnd.1
      rw [dictGet_update_not_mem _ _ _ hnot, dictGet_insert_self]
    · exact ih _ hnd.2 hmem2

theorem dictGet_insert_isSome (d : List (String × String)) (k' k v : String)
    (h : (dictGet d k).isSome) : (dictGet (dictInsert d k' v) k).isSome := by
  by_cases hk : k' = k
  · subst hk
    rw [dictGet_insert_self]
    rfl
  · rw [dictGet_insert_ne _ _ _ _ hk]
    exact h

theorem dictGet_update_isSome (d : List (String × String))
    (upd : List (String × String)) (k : String)
    (h : (dictGet d k).isSome) : (dictGet (dictUpdate d upd) k).isSome := by
  induction upd generalizing d with
  | nil => exact h
  | cons kv rest ih =>
    rw [dictUpdate, List.foldl_cons]
    exact ih _ (dictGet_insert_isSome _ _ _ _ h)

theorem formatTemplate_missing (kwargs : List (String × String)) (k : String)
    (tpl : List TemplatePart) (hmem : TemplatePart.field k ∈ tpl)
    (hmiss : dictGet kwargs k = none) :
    formatTemplate kwargs tpl = .error () := by
  induction tpl with
  | nil => cases hmem
  | cons p rest ih =>
    rcases List.mem_cons.mp hmem with heq | hmem2
    · subst heq
      rw [formatTemplate, hmiss]
    · cases p with
      | lit s => rw [formatTemplate, ih hmem2]; rfl
      | field key =>
        rw [formatTemplate]
        cases hkey : dictGet kwargs key with
        | none => rfl
        | some v => rw [ih hmem2]; rfl

theorem formatTemplate_total (kwargs : List (String × String))
    (tpl : List TemplatePart)
    (h : ∀ k, TemplatePart.field k ∈ tpl → (dictGet kwargs k).isSome) :
    ∃ s, formatTemplate kwargs tpl = .ok s := by
  induction tpl with
  | nil => exact ⟨"", rfl⟩
  | cons p rest ih =>
    have hrest : ∀ k, TemplatePart.field k ∈ rest → (dictGet kwargs k).isSome :=
      fun k hk => h k (List.mem_cons_of_mem _ hk)
    obtain ⟨s, hs⟩ := ih hrest
    cases p with
    | lit t => exact ⟨t ++ s, by rw [formatTemplate, hs]; rfl⟩
    | field key =>
      have hsome := h key (List.mem_cons_self _ _)
      cases hkey : dictGet kwargs key with
      | none => rw [hkey] at hsome; cases hsome
      | some v => exact ⟨v ++ s, by rw [formatTemplate, hkey, hs]; rfl⟩

theorem as_syslog_eq_toSyslogPriority (v : Verbosity) :
    v.as_syslog = toSyslogPriority v := by
  cases v <;> rfl

theorem verbosityArg_value_le_four (a : VerbosityArg) : a.value ≤ 4 := by
  rcases a with v | v <;> cases v <;> decide

/-! ### Claim theorems -/

/-- C1: for every handler with minimum-verbosity threshold T,
`write_entry(e, v)` is a no-op when `v < T` (the destination is
unchanged), and when `v >= T` the destination receives exactly the bytes
of `e` in the configured (`utf8`) encoding; the encoding round trip is
lossless for every unicode string, of any length and content. -/
theorem write_entry_threshold_and_exact_bytes (fh : FileHandler)
    (sh : SocketHandler) (e : String) (v : Verbosity) (disk : List Nat)
    (sent : List (List Nat)) :
    fh.write_entry e v disk
      = some (if fh.verbosity.value ≤ v.value then disk ++ utf8Encode e else disk)
    ∧ sh.write_entry e v sent
      = sent ++ (if sh.verbosity.value ≤ v.value then [utf8Encode e] else [])
    ∧ utf8Decode (utf8Encode e) = some e := by
  refine ⟨?_, ?_, utf8Decode_utf8Encode e⟩
  · rw [FileHandler.write_entry]
    by_cases h : fh.verbosity.value ≤ v.value
    · rw [if_pos h, if_pos h, utf8Decode_utf8Encode]
      rfl
    · rw [if_neg h, if_neg h]
  · rw [SocketHandler.write_entry]
    by_cases h : sh.verbosity.value ≤ v.value
    · rw [if_pos h, if_pos h]
    · rw [if_neg h, if_neg h, List.append_nil]

/-- C2: for a facility F and a verbosity at or above the threshold,
`SyslogHandler.write_entry` sends exactly the bytes, in the configured
encoding, of `<` + (F*8 + toSyslogPriority v) + `>` + entry plus a single
NUL terminator byte, where `toSyslogPriority` maps debug to the syslog
DEBUG priority, info to INFO, warning to WARNING and everything else to
ERR. -/
theorem syslog_write_entry_framing (h : SyslogHandler) (e : String)
    (v : Verbosity) (sent : List (List Nat))
    (hth : h.verbosity.value ≤ v.value) :
    h.write_entry e v sent
      = sent ++ [utf8Encode
          ("<" ++ toString (h.facility * 8 + toSyslogPriority v) ++ ">" ++ e)
          ++ [0]] := by
  rw [SyslogHandler.write_entry, if_pos hth, SyslogHandler._get_priority,
    as_syslog_eq_toSyslogPriority, utf8Encode_append, utf8Encode_nul]

theorem syslog_write_entry_framing_witness :
    SyslogHandler.write_entry (SyslogHandler.init none none) "hi" .error []
      = [] ++ [utf8Encode
          ("<" ++ toString ((SyslogHandler.init none none).facility * 8
            + toSyslogPriority .error) ++ ">" ++ "hi")
          ++ [0]] :=
  syslog_write_entry_framing (SyslogHandler.init none none) "hi" .error []
    (by decide)

/-- C4 counterexample: a `StdErrHandler` constructed without an explicit
verbosity has threshold `info`, not the `warning` the claim states. -/
theorem stderr_default_verbosity_counterexample :
    (StdErrHandler.init none).verbosity = VerbosityArg.enumV Verbosity.info
    ∧ VerbosityArg.enumV Verbosity.info ≠ VerbosityArg.enumV Verbosity.warning := by
  decide

/-- C4 amended: every stream handler constructed without an explicit
verbosity defaults to `info` — the stderr-oriented variant included. -/
theorem stream_handler_default_verbosity :
    (StdErrHandler.init none).verbosity = VerbosityArg.enumV Verbosity.info
    ∧ (StdOutHandler.init none).verbosity = VerbosityArg.enumV Verbosity.info
    ∧ ∀ s : StreamId, (StreamHandler.init s none).verbosity
        = VerbosityArg.enumV Verbosity.info :=
  ⟨rfl, rfl, fun _ => rfl⟩

/-- C5 counterexample: `StreamHandler.write_entry` at or above threshold
performs the write but no flush, contradicting the claim's "and then
flushes the stream". -/
theorem stream_write_no_flush_counterexample :
    (StreamHandler.init (StreamId.other 0)
        (some (VerbosityArg.enumV .info))).write_entry "x" .info
      = [StreamAction.write "x"]
    ∧ (StreamHandler.init (StreamId.other 0)
        (some (VerbosityArg.enumV .info))).write_entry "x" .info
      ≠ [StreamAction.write "x", StreamAction.flush]
    ∧ StreamAction.flush ∉ (StreamHandler.init (StreamId.other 0)
        (some (VerbosityArg.enumV .info))).write_entry "x" .info := by
  refine ⟨rfl, by decide, by decide⟩

/-- C5 amended: for every entry at or above its threshold,
`StreamHandler.write_entry` writes the literal entry text to its stream
and performs no other stream operation (in particular no flush). -/
theorem stream_write_entry_literal (h : StreamHandler) (e : String)
    (v : Verbosity) (hth : h.verbosity.value ≤ v.value) :
    h.write_entry e v = [StreamAction.write e] := by
  rw [StreamHandler.write_entry, if_pos hth]

theorem stream_write_entry_literal_witness :
    (StdOutHandler.init none).write_entry "hello" .info
      = [StreamAction.write "hello"] :=
  stream_write_entry_literal (StdOutHandler.init none) "hello" .info (by decide)

/-- C3 counterexample: with `port=0` (given but falsy) and a datagram
type, the code connects to the bare host while the claim's algorithm says
the target address is `(host, 0)`. -/
theorem socket_init_claim_counterexample :
    SocketHandler.initConn "h" (some 0) none (some SOCK_DGRAM)
      = SockConn.rawConnect AF_UNIX SOCK_DGRAM (SockAddr.hostOnly "h")
    ∧ claimedInitConn "h" (some 0) none (some SOCK_DGRAM)
      = SockConn.rawConnect AF_UNIX SOCK_DGRAM (SockAddr.hostPort "h" 0)
    ∧ SocketHandler.initConn "h" (some 0) none (some SOCK_DGRAM)
      ≠ claimedInitConn "h" (some 0) none (some SOCK_DGRAM) := by
  refine ⟨by decide, by decide, by decide⟩

/-- C3 amended: the construction algorithm as claimed, with "given"
read under Python truthiness — a port, family or type of `0` counts as
not given in the else branch. -/
theorem socket_init_selection_amended (host : String)
    (port family type : Option Nat) :
    SocketHandler.initConn host port family type
      = amendedInitConn host port family type := by
  rcases port with _ | p <;> rcases family with _ | f <;> rcases type with _ | t <;>
    simp only [SocketHandler.initConn, amendedInitConn, optTruthy] <;>
    split_ifs <;> simp_all

/-- C6: a log call whose template contains a placeholder key absent from
the merged context map fails with a formatting error, and no entry is
dispatched to any handler (the handler fan-out never runs). -/
theorem log_missing_placeholder_error (lg : Logger) (env : Env)
    (v : Verbosity) (m : String) (err : Bool)
    (ctx : List (String × CtxValue)) (k : String)
    (hmem : TemplatePart.field k ∈ lg.template)
    (hmiss : dictGet
        (lg.mergedKwargs env v (if err then env.traceback else m) ctx) k
      = none) :
    lg._log env v m err ctx = .error () := by
  simp only [Logger._log]
  rw [formatTemplate_missing _ _ _ hmem hmiss]

theorem log_missing_placeholder_error_witness :
    (Logger.init "test" (some [TemplatePart.field "derp"]) none true)._log
        sampleEnv .info "m" false []
      = .error () :=
  log_missing_placeholder_error
    (Logger.init "test" (some [TemplatePart.field "derp"]) none true)
    sampleEnv .info "m" false [] "derp" (by decide) (by decide)

/-- C7: each caller-supplied context value that is a zero-argument
callable is invoked at most once per log call (the embedded comprehension
performs exactly one call for a callable, none for a plain value), and the
log call's outcome is the one obtained by substituting the callable's
first result for it — the result, not the callable, is what appears. -/
theorem lazy_context_invoked_once :
    (∀ (ctx : List (String × CtxValue)) (i : Fin ctx.length),
      ctxCallCount ctx i ≤ 1)
    ∧ ∀ (lg : Logger) (env : Env) (v : Verbosity) (m : String) (err : Bool)
        (pre post : List (String × CtxValue)) (k : String) (f : Nat → String),
        lg._log env v m err (pre ++ (k, CtxValue.callable f) :: post)
          = lg._log env v m err (pre ++ (k, CtxValue.plain (f 0)) :: post) := by
  constructor
  · intro ctx i
    rw [ctxCallCount]
    cases (ctx.get i).2 <;> simp [evalCtxValue]
  · intro lg env v m err pre post k f
    have hrc : runContext (pre ++ (k, CtxValue.callable f) :: post)
        = runContext (pre ++ (k, CtxValue.plain (f 0)) :: post) := by
      simp [runContext, evalCtxValue]
    simp only [Logger._log, Logger.mergedKwargs, hrc]

/-- C8: a caller-supplied context entry overrides a same-named standard
key (or any key) in the map used for template interpolation; what lands in
the map is its evaluated value. -/
theorem context_overrides_standard_keys (lg : Logger) (env : Env)
    (v : Verbosity) (m : String) (ctx : List (String × CtxValue))
    (k : String) (cv : CtxValue)
    (hnd : (ctx.map Prod.fst).Nodup) (hmem : (k, cv) ∈ ctx) :
    dictGet (lg.mergedKwargs env v m ctx) k = some (evalCtxValue cv).1 := by
  rw [Logger.mergedKwargs]
  apply dictGet_update_mem
  · have hkeys : (runContext ctx).map Prod.fst = ctx.map Prod.fst := by
      simp [runContext, List.map_map, Function.comp]
    rwa [hkeys]
  · rw [runContext]
    exact List.mem_map.mpr ⟨(k, cv), hmem, rfl⟩

theorem context_overrides_standard_keys_witness :
    dictGet ((Logger.init "test" none none true).mergedKwargs sampleEnv
        .info "hello" [("name", CtxValue.plain "override")]) "name"
      = some "override" :=
  context_overrides_standard_keys (Logger.init "test" none none true)
    sampleEnv .info "hello" [("name", CtxValue.plain "override")]
    "name" (CtxValue.plain "override") (by decide)
    (List.mem_cons_self _ _)

theorem log_ok_of_format (lg : Logger) (env : Env) (v : Verbosity)
    (m : String) (err : Bool) (ctx : List (String × CtxValue)) (s : String)
    (hs : formatTemplate
        (lg.mergedKwargs env v (if err then env.traceback else m) ctx)
        lg.template = .ok s) :
    lg._log env v m err ctx
      = .ok (lg.handlers.map (fun h =>
          h.write_entry
            (if lg.ensure_new_line && !(s.endsWith "\n") then s ++ "\n" else s)
            v)) := by
  simp only [Logger._log]
  rw [hs]

/-- C9: passing the falsy `IntEnum` member `lager.verbosity.DEBUG` to a
handler constructor yields a threshold of `info`, not `debug`, because of
`verbosity or Verbosity.info`; in particular a logger whose only handler
is `StdErrHandler(DEBUG)` — the package-level default configuration —
writes nothing for a debug-level entry. -/
theorem intenum_debug_threshold_resolves_info :
    resolveVerbosity (some (VerbosityArg.intEnumV IntVerbosity.debug))
      = VerbosityArg.enumV Verbosity.info
    ∧ (∀ s : StreamId, (StreamHandler.init s
          (some (VerbosityArg.intEnumV IntVerbosity.debug))).verbosity
        = VerbosityArg.enumV Verbosity.info)
    ∧ (FileHandler.init
          (some (VerbosityArg.intEnumV IntVerbosity.debug))).verbosity
        = VerbosityArg.enumV Verbosity.info
    ∧ ∀ (name : String) (env : Env) (msg : String),
        (Logger.init name none
            (some [StdErrHandler.init
              (some (VerbosityArg.intEnumV IntVerbosity.debug))])
            true).debug env msg []
          = .ok [[]] := by
  refine ⟨rfl, fun _ => rfl, rfl, ?_⟩
  intro name env msg
  have hkeys : ∀ (m' : String) (k : String),
      TemplatePart.field k ∈ (Logger.init name none
          (some [StdErrHandler.init
            (some (VerbosityArg.intEnumV IntVerbosity.debug))]) true).template →
      (dictGet ((Logger.init name none
          (some [StdErrHandler.init
            (some (VerbosityArg.intEnumV IntVerbosity.debug))])
          true).mergedKwargs env .debug m' []) k).isSome := by
    intro m' k hk
    have hk2 : TemplatePart.field k ∈ DEFAULT_TEMPLATE := hk
    have : k = "time" ∨ k = "verbosity" ∨ k = "name" ∨ k = "message" := by
      simp [DEFAULT_TEMPLATE] at hk2
      tauto
    rcases this with h | h | h | h <;> subst h <;>
      simp [Logger.mergedKwargs, Logger._get_kwargs, runContext, dictUpdate,
        dictInsert, dictGet, Logger.init]
  obtain ⟨s, hs⟩ := formatTemplate_total _ _
    (hkeys (if (false : Bool) then env.traceback else msg))
  rw [Logger.debug, log_ok_of_format _ _ _ _ _ _ s hs]
  simp [Logger.init, StdErrHandler.init, StreamHandler.init,
    StreamHandler.write_entry, resolveVerbosity, VerbosityArg.truthy,
    VerbosityArg.value, IntVerbosity.value, Verbosity.value]

/-- C10: the `exception` verbosity used by `capture_exception` has the
maximal rank 4, at or above every constructible threshold, so an
exception-level entry passes every handler's threshold check. -/
theorem exception_entries_never_filtered :
    (∀ t : Verbosity, t.value ≤ Verbosity.exception.value)
    ∧ (∀ a : Option VerbosityArg,
        (resolveVerbosity a).value ≤ Verbosity.exception.value)
    ∧ (∀ h : StreamHandler, ∀ e : String,
        h.write_entry e .exception = [StreamAction.write e])
    ∧ (∀ h : SocketHandler, ∀ (e : String) (sent : List (List Nat)),
        h.write_entry e .exception sent = sent ++ [utf8Encode e])
    ∧ ∀ (lg : Logger) (env : Env) (ctx : List (String × CtxValue)),
        lg.capture_exception env ctx = lg._log env .exception "" true ctx := by
  refine ⟨fun t => by cases t <;> decide, fun a => ?_, fun h e => ?_,
    fun h e sent => ?_, fun _ _ _ => rfl⟩
  · rcases a with _ | a
    · decide
    · rcases a with v | v <;> cases v <;> decide
  · rw [StreamHandler.write_entry,
      if_pos (show h.verbosity.value ≤ Verbosity.exception.value from
        verbosityArg_value_le_four h.verbosity)]
  · rw [SocketHandler.write_entry,
      if_pos (show h.verbosity.value ≤ Verbosity.exception.value from
        verbosityArg_value_le_four h.verbosity)]
